import Mathlib

/-!
Verification of the delta-based reconciliation core of odh-model-controller.

The definitions below are a shallow embedding of the Go sources under
controllers/: the delta state machine driven by `processDelta`
(kserve_authconfig_reconciler.go and the KserveMetricsDashboardReconciler),
the comparator functions of kserve_monitoring_controller.go, and the
deployment-mode resolution of utils/utils.go.  Store and Kubernetes client
calls are modelled by explicit oracles plus an operation trace; Go errors are
an explicit inductive; Go maps are association lists.
-/

namespace OdhModelController

/-! ## Go error model -/

/-- A Go `error` value.  `notFound` models a Kubernetes StatusError with
reason NotFound (recognised by k8serror.IsNotFound); `wrapped` models an
error annotated with a message while keeping its cause
(github.com/pkg/errors.Wrapf, fmt.Errorf with the w verb). -/
inductive GoErr where
  | base (msg : String)
  | notFound (msg : String)
  | wrapped (msg : String) (cause : GoErr)
  deriving DecidableEq, Repr

/-- Model of pkg/errors.Wrapf: returns nil when err is nil, otherwise wraps
err in an annotation carrying msg. -/
def Wrapf (err : Option GoErr) (msg : String) : Option GoErr :=
  err.map (GoErr.wrapped msg)

/-- Model of k8serror.IsNotFound: true exactly on a NotFound status error. -/
def IsNotFound : GoErr → Bool
  | GoErr.notFound _ => true
  | _ => false

/-! ## Delta type and accessors

The processors package is not under src/, so the Delta value and
`ComputeDelta` are modelled from the spec (section 4.2); the accessors
`HasChanges`, `IsAdded`, `IsUpdated`, `IsRemoved` are the ones the in-src
callers (`processDelta` in both reconcilers) invoke on the result. -/

/-- The Delta produced by the Delta Processor: a classification of the
required action, exposed through boolean accessors. -/
structure ResourceDelta where
  added : Bool
  updated : Bool
  removed : Bool
  deriving DecidableEq, Repr

def ResourceDelta.IsAdded (d : ResourceDelta) : Bool := d.added

def ResourceDelta.IsUpdated (d : ResourceDelta) : Bool := d.updated

def ResourceDelta.IsRemoved (d : ResourceDelta) : Bool := d.removed

def ResourceDelta.HasChanges (d : ResourceDelta) : Bool :=
  d.added || d.updated || d.removed

/-- The no-change accessor: the Delta requires no action. -/
def ResourceDelta.noChangeHolds (d : ResourceDelta) : Bool := !d.HasChanges

/-- Modelled from the spec: `ComputeDelta` of the Delta Processor
(section 4.2 case table); the processors package is not under src/.
Absence of a resource (a nil Go pointer) is `none`. -/
def ComputeDelta {α : Type} (comparator : α → α → Bool)
    (desired existing : Option α) : ResourceDelta :=
  match desired, existing with
  | none, none => ⟨false, false, false⟩
  | some _, none => ⟨true, false, false⟩
  | none, some _ => ⟨false, false, true⟩
  | some d, some e =>
      if comparator d e then ⟨false, false, false⟩ else ⟨false, true, false⟩

/-- Exactly one of the four Delta accessors holds. -/
def exactlyOneDeltaKind (d : ResourceDelta) : Prop :=
  (d.noChangeHolds = true ∧ d.IsAdded = false ∧ d.IsUpdated = false ∧ d.IsRemoved = false)
  ∨ (d.noChangeHolds = false ∧ d.IsAdded = true ∧ d.IsUpdated = false ∧ d.IsRemoved = false)
  ∨ (d.noChangeHolds = false ∧ d.IsAdded = false ∧ d.IsUpdated = true ∧ d.IsRemoved = false)
  ∨ (d.noChangeHolds = false ∧ d.IsAdded = false ∧ d.IsUpdated = false ∧ d.IsRemoved = true)

/-- C1: ComputeDelta realises the case table of section 4.2 of the spec
(absent/absent gives no-change; present/absent gives add; absent/present
gives remove; present/present gives no-change when the comparator reports
equal and update otherwise), and exactly one of the four accessors holds on
every Delta it returns. -/
theorem computeDelta_caseTable_exactlyOne {α : Type} (c : α → α → Bool)
    (d e : α) (od oe : Option α) :
    ComputeDelta c (none : Option α) none = ⟨false, false, false⟩
    ∧ ComputeDelta c (some d) none = ⟨true, false, false⟩
    ∧ ComputeDelta c (none : Option α) (some e) = ⟨false, false, true⟩
    ∧ ComputeDelta c (some d) (some e)
        = (if c d e then ⟨false, false, false⟩ else ⟨false, true, false⟩)
    ∧ exactlyOneDeltaKind (ComputeDelta c od oe) := by
  refine ⟨rfl, rfl, rfl, rfl, ?_⟩
  cases od with
  | none =>
      cases oe with
      | none =>
          left
          simp [ComputeDelta, ResourceDelta.noChangeHolds, ResourceDelta.HasChanges,
            ResourceDelta.IsAdded, ResourceDelta.IsUpdated, ResourceDelta.IsRemoved]
      | some y =>
          right; right; right
          simp [ComputeDelta, ResourceDelta.noChangeHolds, ResourceDelta.HasChanges,
            ResourceDelta.IsAdded, ResourceDelta.IsUpdated, ResourceDelta.IsRemoved]
  | some x =>
      cases oe with
      | none =>
          right; left
          simp [ComputeDelta, ResourceDelta.noChangeHolds, ResourceDelta.HasChanges,
            ResourceDelta.IsAdded, ResourceDelta.IsUpdated, ResourceDelta.IsRemoved]
      | some y =>
          cases hc : c x y with
          | true =>
              left
              simp [ComputeDelta, hc, ResourceDelta.noChangeHolds, ResourceDelta.HasChanges,
                ResourceDelta.IsAdded, ResourceDelta.IsUpdated, ResourceDelta.IsRemoved]
          | false =>
              right; right; left
              simp [ComputeDelta, hc, ResourceDelta.noChangeHolds, ResourceDelta.HasChanges,
                ResourceDelta.IsAdded, ResourceDelta.IsUpdated, ResourceDelta.IsRemoved]

/-! ## AuthConfig resource (kserve_authconfig_reconciler.go)

The authorino AuthConfig is modelled by its reconciler-owned fields (Spec,
Labels) plus the metadata fields the source touches or must preserve:
name, namespace (field `ns`, since namespace is a Lean keyword), the
store-assigned resourceVersion and creationTimestamp, and the owner
references stamped by SetControllerReference.  The spec payload beyond
`Spec.Hosts` comes from the loaded template and is abstracted by its
serialized form. -/

structure AuthConfigSpec where
  hosts : List String
  authPayload : String
  deriving DecidableEq, Repr

structure AuthConfig where
  name : String
  ns : String
  resourceVersion : String
  creationTimestamp : String
  ownerRefs : List String
  labels : List (String × String)
  spec : AuthConfigSpec
  deriving DecidableEq, Repr

/-- Modelled from the spec: the comparator returned by
comparators.GetAuthConfigComparator (the comparators package is not under
src/).  Per section 3 a comparator ignores fields outside the system's
ownership; the update merge of processDelta (lines 138-140) identifies the
owned fields of an AuthConfig as Spec and Labels. -/
def GetAuthConfigComparator : AuthConfig → AuthConfig → Bool :=
  fun a b => a.spec == b.spec && a.labels == b.labels

/-- One interaction of the KserveAuthConfigReconciler with the store or its
auxiliary lookups, recorded in an operation trace. -/
inductive AuthStoreOp where
  | create (res : AuthConfig)
  | update (res : AuthConfig)
  | remove (name ns : String)
  | get (name ns : String)
  | detect (name ns : String)
  | loadTemplate (name ns : String)
  deriving DecidableEq, Repr

/-- A store mutation, as opposed to a read or an auxiliary lookup. -/
def AuthStoreOp.isMutation : AuthStoreOp → Bool
  | AuthStoreOp.create _ => true
  | AuthStoreOp.update _ => true
  | AuthStoreOp.remove _ _ => true
  | _ => false

/-- Outcome of each store mutation call for one pass (the error returned by
store.Create, store.Update, store.Remove respectively; none = success). -/
structure AuthStoreBehavior where
  createErr : Option GoErr
  updateErr : Option GoErr
  removeErr : Option GoErr
  deriving Repr

/-- The update merge of processDelta (lines 138-140): rp is a deep copy of
the existing resource with only Spec and Labels overwritten from the
desired resource. -/
def KserveAuthConfigReconciler.updateMerge (existing desired : AuthConfig) : AuthConfig :=
  { existing with spec := desired.spec, labels := desired.labels }

/-- The zero AuthConfig, used only to model Go pointer dereference
(`Option.getD nilAuthConfig`): in every branch that dereferences, the
pointer is non-nil by the ComputeDelta case table, so the default is never
read. -/
def nilAuthConfig : AuthConfig :=
  { name := "", ns := "", resourceVersion := "", creationTimestamp := "",
    ownerRefs := [], labels := [], spec := { hosts := [], authPayload := "" } }

/-- Embedding of KserveAuthConfigReconciler.processDelta (lines 121-152):
computes the Delta, returns nil without a store call when there are no
changes, and otherwise performs the one corresponding store call, returning
its error wrapped by errors.Wrapf.  The returned list is the trace of store
calls issued. -/
def KserveAuthConfigReconciler.processDelta (store : AuthStoreBehavior)
    (desiredState existingState : Option AuthConfig) :
    Option GoErr × List AuthStoreOp :=
  let delta := ComputeDelta GetAuthConfigComparator desiredState existingState
  if !delta.HasChanges then (none, [])
  else if delta.IsAdded then
    let d := desiredState.getD nilAuthConfig
    (Wrapf store.createErr
      ("could not store AuthConfig " ++ d.name ++ " for InferenceService " ++ d.name),
     [AuthStoreOp.create d])
  else if delta.IsUpdated then
    let d := desiredState.getD nilAuthConfig
    let e := existingState.getD nilAuthConfig
    let rp := KserveAuthConfigReconciler.updateMerge e d
    (Wrapf store.updateErr
      ("could not store AuthConfig " ++ d.name ++ " for InferenceService " ++ d.name),
     [AuthStoreOp.update rp])
  else if delta.IsRemoved then
    let e := existingState.getD nilAuthConfig
    (Wrapf store.removeErr
      ("could not remove AuthConfig " ++ e.name ++ " for InferenceService " ++ e.name),
     [AuthStoreOp.remove e.name e.ns])
  else (none, [])

/-! ## Metrics-dashboard ConfigMap (KserveMetricsDashboardReconciler) -/

structure ConfigMap where
  name : String
  ns : String
  resourceVersion : String
  creationTimestamp : String
  ownerRefs : List String
  labels : List (String × String)
  data : List (String × String)
  deriving DecidableEq, Repr

/-- Modelled from the spec: the comparator returned by
comparators.GetConfigMapComparator (the comparators package is not under
src/).  Per section 3 a comparator ignores fields outside the system's
ownership; the update merge of the metrics processDelta (lines 312-314)
identifies the owned fields of a ConfigMap as Data and Labels. -/
def GetConfigMapComparator : ConfigMap → ConfigMap → Bool :=
  fun a b => a.data == b.data && a.labels == b.labels

/-- One Kubernetes client mutation issued by the metrics reconciler. -/
inductive CMStoreOp where
  | create (res : ConfigMap)
  | update (res : ConfigMap)
  | delete (res : ConfigMap)
  deriving DecidableEq, Repr

/-- Outcome of each client mutation call for one pass (none = success). -/
structure CMClientBehavior where
  createErr : Option GoErr
  updateErr : Option GoErr
  deleteErr : Option GoErr
  deriving Repr

/-- The update merge of the metrics processDelta (lines 312-314): rp is a
deep copy of the existing ConfigMap with only Labels and Data overwritten
from the desired ConfigMap. -/
def KserveMetricsDashboardReconciler.updateMerge (existing desired : ConfigMap) : ConfigMap :=
  { existing with labels := desired.labels, data := desired.data }

/-- The zero ConfigMap, used only to model Go pointer dereference; in every
branch that dereferences, the pointer is non-nil by the ComputeDelta case
table. -/
def nilConfigMap : ConfigMap :=
  { name := "", ns := "", resourceVersion := "", creationTimestamp := "",
    ownerRefs := [], labels := [], data := [] }

/-- Embedding of KserveMetricsDashboardReconciler.processDelta (lines
295-327).  The Go function runs the three `if delta.IsX` blocks in
sequence, returning the client error unmodified as soon as one call fails;
the embedding mirrors that sequential structure and records the trace of
client calls. -/
def KserveMetricsDashboardReconciler.processDelta (cli : CMClientBehavior)
    (desiredResource existingResource : Option ConfigMap) :
    Option GoErr × List CMStoreOp :=
  let delta := ComputeDelta GetConfigMapComparator desiredResource existingResource
  if !delta.HasChanges then (none, [])
  else
    let step1 : Option GoErr × List CMStoreOp :=
      if delta.IsAdded then
        (cli.createErr, [CMStoreOp.create (desiredResource.getD nilConfigMap)])
      else (none, [])
    if step1.1.isSome then step1
    else
      let step2 : Option GoErr × List CMStoreOp :=
        if delta.IsUpdated then
          let rp := KserveMetricsDashboardReconciler.updateMerge
            (existingResource.getD nilConfigMap) (desiredResource.getD nilConfigMap)
          (cli.updateErr, [CMStoreOp.update rp])
        else (none, [])
      if step2.1.isSome then (step2.1, step1.2 ++ step2.2)
      else
        let step3 : Option GoErr × List CMStoreOp :=
          if delta.IsRemoved then
            (cli.deleteErr, [CMStoreOp.delete (existingResource.getD nilConfigMap)])
          else (none, [])
        (step3.1, step1.2 ++ step2.2 ++ step3.2)

/-! ## Store semantics over an operation trace -/

/-- Modelled from the spec: the external store (section 6) consuming a trace
of AuthConfig operations: Create and Update persist the written object,
Remove deletes it, reads and auxiliary lookups leave the store unchanged. -/
def applyAuthOps : Option AuthConfig → List AuthStoreOp → Option AuthConfig
  | st, [] => st
  | _, AuthStoreOp.create r :: rest => applyAuthOps (some r) rest
  | _, AuthStoreOp.update r :: rest => applyAuthOps (some r) rest
  | _, AuthStoreOp.remove _ _ :: rest => applyAuthOps none rest
  | st, AuthStoreOp.get _ _ :: rest => applyAuthOps st rest
  | st, AuthStoreOp.detect _ _ :: rest => applyAuthOps st rest
  | st, AuthStoreOp.loadTemplate _ _ :: rest => applyAuthOps st rest

/-- Modelled from the spec: the external store (section 6) consuming a trace
of ConfigMap mutations. -/
def applyCMOps : Option ConfigMap → List CMStoreOp → Option ConfigMap
  | st, [] => st
  | _, CMStoreOp.create r :: rest => applyCMOps (some r) rest
  | _, CMStoreOp.update r :: rest => applyCMOps (some r) rest
  | _, CMStoreOp.delete _ :: rest => applyCMOps none rest

/-! ### Per-case reduction lemmas for the two processDelta embeddings -/

theorem authPD_none_none (store : AuthStoreBehavior) :
    KserveAuthConfigReconciler.processDelta store none none = (none, []) := rfl

theorem authPD_add (store : AuthStoreBehavior) (d : AuthConfig) :
    KserveAuthConfigReconciler.processDelta store (some d) none
      = (Wrapf store.createErr
          ("could not store AuthConfig " ++ d.name ++ " for InferenceService " ++ d.name),
         [AuthStoreOp.create d]) := rfl

theorem authPD_remove (store : AuthStoreBehavior) (e : AuthConfig) :
    KserveAuthConfigReconciler.processDelta store none (some e)
      = (Wrapf store.removeErr
          ("could not remove AuthConfig " ++ e.name ++ " for InferenceService " ++ e.name),
         [AuthStoreOp.remove e.name e.ns]) := rfl

theorem authPD_equal (store : AuthStoreBehavior) (d e : AuthConfig)
    (hc : GetAuthConfigComparator d e = true) :
    KserveAuthConfigReconciler.processDelta store (some d) (some e) = (none, []) := by
  simp [KserveAuthConfigReconciler.processDelta, ComputeDelta, hc,
    ResourceDelta.HasChanges, ResourceDelta.IsAdded, ResourceDelta.IsUpdated,
    ResourceDelta.IsRemoved]

theorem authPD_update (store : AuthStoreBehavior) (d e : AuthConfig)
    (hc : GetAuthConfigComparator d e = false) :
    KserveAuthConfigReconciler.processDelta store (some d) (some e)
      = (Wrapf store.updateErr
          ("could not store AuthConfig " ++ d.name ++ " for InferenceService " ++ d.name),
         [AuthStoreOp.update (KserveAuthConfigReconciler.updateMerge e d)]) := by
  simp [KserveAuthConfigReconciler.processDelta, ComputeDelta, hc,
    ResourceDelta.HasChanges, ResourceDelta.IsAdded, ResourceDelta.IsUpdated,
    ResourceDelta.IsRemoved]

theorem cmPD_none_none (cli : CMClientBehavior) :
    KserveMetricsDashboardReconciler.processDelta cli none none = (none, []) := rfl

theorem cmPD_add (cli : CMClientBehavior) (d : ConfigMap) :
    KserveMetricsDashboardReconciler.processDelta cli (some d) none
      = (if cli.createErr.isSome then (cli.createErr, [CMStoreOp.create d])
         else (none, [CMStoreOp.create d])) := by
  simp only [KserveMetricsDashboardReconciler.processDelta, ComputeDelta,
    ResourceDelta.HasChanges, ResourceDelta.IsAdded, ResourceDelta.IsUpdated,
    ResourceDelta.IsRemoved, Option.getD]
  cases hce : cli.createErr <;> simp [hce]

theorem cmPD_remove (cli : CMClientBehavior) (e : ConfigMap) :
    KserveMetricsDashboardReconciler.processDelta cli none (some e)
      = (cli.deleteErr, [CMStoreOp.delete e]) := by
  simp [KserveMetricsDashboardReconciler.processDelta, ComputeDelta,
    ResourceDelta.HasChanges, ResourceDelta.IsAdded, ResourceDelta.IsUpdated,
    ResourceDelta.IsRemoved]

theorem cmPD_equal (cli : CMClientBehavior) (d e : ConfigMap)
    (hc : GetConfigMapComparator d e = true) :
    KserveMetricsDashboardReconciler.processDelta cli (some d) (some e) = (none, []) := by
  simp [KserveMetricsDashboardReconciler.processDelta, ComputeDelta, hc,
    ResourceDelta.HasChanges, ResourceDelta.IsAdded, ResourceDelta.IsUpdated,
    ResourceDelta.IsRemoved]

theorem cmPD_update (cli : CMClientBehavior) (d e : ConfigMap)
    (hc : GetConfigMapComparator d e = false) :
    KserveMetricsDashboardReconciler.processDelta cli (some d) (some e)
      = (cli.updateErr,
         [CMStoreOp.update (KserveMetricsDashboardReconciler.updateMerge e d)]) := by
  simp only [KserveMetricsDashboardReconciler.processDelta, ComputeDelta, hc,
    ResourceDelta.HasChanges, ResourceDelta.IsAdded, ResourceDelta.IsUpdated,
    ResourceDelta.IsRemoved, Option.getD]
  cases hue : cli.updateErr <;> simp [hue]

/-- The AuthConfig comparator is satisfied by the object the update branch
writes back: the merge copies exactly the fields the comparator reads. -/
theorem authComparator_merge (d e : AuthConfig) :
    GetAuthConfigComparator d (KserveAuthConfigReconciler.updateMerge e d) = true := by
  simp [GetAuthConfigComparator, KserveAuthConfigReconciler.updateMerge]

theorem cmComparator_merge (d e : ConfigMap) :
    GetConfigMapComparator d (KserveMetricsDashboardReconciler.updateMerge e d) = true := by
  simp [GetConfigMapComparator, KserveMetricsDashboardReconciler.updateMerge]

theorem authComparator_refl (a : AuthConfig) : GetAuthConfigComparator a a = true := by
  simp [GetAuthConfigComparator]

theorem cmComparator_refl (a : ConfigMap) : GetConfigMapComparator a a = true := by
  simp [GetConfigMapComparator]

/-- C2: for every desired/existing pair, applying the computed Delta's
action to the store (create on add, merge-update on update, delete on
remove, nothing on no-change; store calls succeed) and recomputing the
Delta of the same desired value against the post-apply state yields
no-change, for both in-src processDelta instantiations. -/
theorem applyDelta_then_recompute_noChange
    (dA eA : Option AuthConfig) (dC eC : Option ConfigMap) :
    (ComputeDelta GetAuthConfigComparator dA
      (applyAuthOps eA
        (KserveAuthConfigReconciler.processDelta ⟨none, none, none⟩ dA eA).2)).HasChanges = false
    ∧ (ComputeDelta GetConfigMapComparator dC
      (applyCMOps eC
        (KserveMetricsDashboardReconciler.processDelta ⟨none, none, none⟩ dC eC).2)).HasChanges = false := by
  constructor
  · cases dA with
    | none =>
        cases eA with
        | none =>
            rw [authPD_none_none]
            simp [applyAuthOps, ComputeDelta, ResourceDelta.HasChanges]
        | some e =>
            rw [authPD_remove]
            simp [applyAuthOps, ComputeDelta, ResourceDelta.HasChanges]
    | some d =>
        cases eA with
        | none =>
            rw [authPD_add]
            simp [applyAuthOps, ComputeDelta, authComparator_refl, ResourceDelta.HasChanges]
        | some e =>
            cases hc : GetAuthConfigComparator d e with
            | true =>
                rw [authPD_equal _ _ _ hc]
                simp [applyAuthOps, ComputeDelta, hc, ResourceDelta.HasChanges]
            | false =>
                rw [authPD_update _ _ _ hc]
                simp [applyAuthOps, ComputeDelta, authComparator_merge, ResourceDelta.HasChanges]
  · cases dC with
    | none =>
        cases eC with
        | none =>
            rw [cmPD_none_none]
            simp [applyCMOps, ComputeDelta, ResourceDelta.HasChanges]
        | some e =>
            rw [cmPD_remove]
            simp [applyCMOps, ComputeDelta, ResourceDelta.HasChanges]
    | some d =>
        cases eC with
        | none =>
            rw [cmPD_add]
            simp [applyCMOps, ComputeDelta, cmComparator_refl, ResourceDelta.HasChanges]
        | some e =>
            cases hc : GetConfigMapComparator d e with
            | true =>
                rw [cmPD_equal _ _ _ hc]
                simp [applyCMOps, ComputeDelta, hc, ResourceDelta.HasChanges]
            | false =>
                rw [cmPD_update _ _ _ hc]
                simp [applyCMOps, ComputeDelta, cmComparator_merge, ResourceDelta.HasChanges]

/-! ## Sample resources used by witnesses and counterexamples -/

def sampleAuthConfig : AuthConfig :=
  { name := "mnist", ns := "test-ns", resourceVersion := "42",
    creationTimestamp := "2024-01-01T00:00:00Z", ownerRefs := ["mnist"],
    labels := [("security.opendatahub.io/authorization-group", "default")],
    spec := { hosts := ["mnist.test-ns.svc"], authPayload := "userdefined" } }

def sampleAuthConfigB : AuthConfig :=
  { sampleAuthConfig with spec := { hosts := ["mnist.other.svc"], authPayload := "anonymous" } }

def sampleConfigMap : ConfigMap :=
  { name := "mnist-metrics-dashboard", ns := "test-ns", resourceVersion := "7",
    creationTimestamp := "2024-01-01T00:00:00Z", ownerRefs := ["mnist"],
    labels := [], data := [("Data", "ovms-dashboard-json")] }

def sampleConfigMapB : ConfigMap :=
  { sampleConfigMap with data := [("Data", "tgis-dashboard-json")] }

/-- C5: whenever the computed Delta is no-change, processDelta performs
zero store mutation calls (empty trace) and returns success, in both
reconcilers and for any store behavior. -/
theorem noChange_noStoreCalls (storeA : AuthStoreBehavior) (cliC : CMClientBehavior)
    (dA eA : Option AuthConfig) (dC eC : Option ConfigMap)
    (hA : (ComputeDelta GetAuthConfigComparator dA eA).HasChanges = false)
    (hC : (ComputeDelta GetConfigMapComparator dC eC).HasChanges = false) :
    KserveAuthConfigReconciler.processDelta storeA dA eA = (none, [])
    ∧ KserveMetricsDashboardReconciler.processDelta cliC dC eC = (none, []) := by
  constructor
  · simp [KserveAuthConfigReconciler.processDelta, hA]
  · simp [KserveMetricsDashboardReconciler.processDelta, hC]

/-- Witness for C5 at a concrete equal pair and a failing store. -/
theorem noChange_noStoreCalls_witness :
    (ComputeDelta GetAuthConfigComparator (some sampleAuthConfig) (some sampleAuthConfig)).HasChanges = false
    ∧ (ComputeDelta GetConfigMapComparator (some sampleConfigMap) (some sampleConfigMap)).HasChanges = false
    ∧ KserveAuthConfigReconciler.processDelta
        ⟨some (GoErr.base "boom"), some (GoErr.base "boom"), some (GoErr.base "boom")⟩
        (some sampleAuthConfig) (some sampleAuthConfig) = (none, [])
    ∧ KserveMetricsDashboardReconciler.processDelta
        ⟨some (GoErr.base "boom"), some (GoErr.base "boom"), some (GoErr.base "boom")⟩
        (some sampleConfigMap) (some sampleConfigMap) = (none, []) := by
  refine ⟨by decide, by decide, ?_⟩
  exact noChange_noStoreCalls _ _ _ _ _ _ (by decide) (by decide)

/-- C6: when the Delta is update, the object written to the store is the
existing resource with only the reconciler-owned fields replaced by the
desired values (Spec and Labels for an AuthConfig, Data and Labels for a
ConfigMap); every other field, including the store-assigned
resourceVersion, creationTimestamp and owner references, is taken unchanged
from the existing resource. -/
theorem update_preserves_unowned_fields
    (storeA : AuthStoreBehavior) (cliC : CMClientBehavior)
    (dA eA : AuthConfig) (dC eC : ConfigMap)
    (hA : GetAuthConfigComparator dA eA = false)
    (hC : GetConfigMapComparator dC eC = false) :
    (KserveAuthConfigReconciler.processDelta storeA (some dA) (some eA)).2
      = [AuthStoreOp.update (KserveAuthConfigReconciler.updateMerge eA dA)]
    ∧ (KserveAuthConfigReconciler.updateMerge eA dA).spec = dA.spec
    ∧ (KserveAuthConfigReconciler.updateMerge eA dA).labels = dA.labels
    ∧ (KserveAuthConfigReconciler.updateMerge eA dA).name = eA.name
    ∧ (KserveAuthConfigReconciler.updateMerge eA dA).ns = eA.ns
    ∧ (KserveAuthConfigReconciler.updateMerge eA dA).resourceVersion = eA.resourceVersion
    ∧ (KserveAuthConfigReconciler.updateMerge eA dA).creationTimestamp = eA.creationTimestamp
    ∧ (KserveAuthConfigReconciler.updateMerge eA dA).ownerRefs = eA.ownerRefs
    ∧ (KserveMetricsDashboardReconciler.processDelta cliC (some dC) (some eC)).2
      = [CMStoreOp.update (KserveMetricsDashboardReconciler.updateMerge eC dC)]
    ∧ (KserveMetricsDashboardReconciler.updateMerge eC dC).data = dC.data
    ∧ (KserveMetricsDashboardReconciler.updateMerge eC dC).labels = dC.labels
    ∧ (KserveMetricsDashboardReconciler.updateMerge eC dC).name = eC.name
    ∧ (KserveMetricsDashboardReconciler.updateMerge eC dC).ns = eC.ns
    ∧ (KserveMetricsDashboardReconciler.updateMerge eC dC).resourceVersion = eC.resourceVersion
    ∧ (KserveMetricsDashboardReconciler.updateMerge eC dC).creationTimestamp = eC.creationTimestamp
    ∧ (KserveMetricsDashboardReconciler.updateMerge eC dC).ownerRefs = eC.ownerRefs := by
  refine ⟨?_, rfl, rfl, rfl, rfl, rfl, rfl, rfl, ?_, rfl, rfl, rfl, rfl, rfl, rfl, rfl⟩
  · rw [authPD_update _ _ _ hA]
  · rw [cmPD_update _ _ _ hC]

/-- Witness for C6 at concrete unequal pairs. -/
theorem update_preserves_unowned_fields_witness :
    GetAuthConfigComparator sampleAuthConfigB sampleAuthConfig = false
    ∧ GetConfigMapComparator sampleConfigMapB sampleConfigMap = false
    ∧ (KserveAuthConfigReconciler.processDelta ⟨none, none, none⟩
        (some sampleAuthConfigB) (some sampleAuthConfig)).2
      = [AuthStoreOp.update (KserveAuthConfigReconciler.updateMerge sampleAuthConfig sampleAuthConfigB)]
    ∧ (KserveAuthConfigReconciler.updateMerge sampleAuthConfig sampleAuthConfigB).resourceVersion
      = sampleAuthConfig.resourceVersion := by
  refine ⟨by decide, by decide, ?_, ?_⟩
  · exact (update_preserves_unowned_fields ⟨none, none, none⟩ ⟨none, none, none⟩
      sampleAuthConfigB sampleAuthConfig sampleConfigMapB sampleConfigMap
      (by decide) (by decide)).1
  · exact (update_preserves_unowned_fields ⟨none, none, none⟩ ⟨none, none, none⟩
      sampleAuthConfigB sampleAuthConfig sampleConfigMapB sampleConfigMap
      (by decide) (by decide)).2.2.2.2.2.1

/-- C3 counterexample: in the KserveAuthConfigReconciler, a store Create
failure is returned wrapped by errors.Wrapf with a context message, not
unmodified: at this concrete input the error Reconcile propagates is not
the store error. -/
theorem storeError_not_unmodified_counterexample :
    (KserveAuthConfigReconciler.processDelta
        ⟨some (GoErr.base "connection refused"), none, none⟩
        (some sampleAuthConfig) none).1
      = some (GoErr.wrapped
          "could not store AuthConfig mnist for InferenceService mnist"
          (GoErr.base "connection refused"))
    ∧ (KserveAuthConfigReconciler.processDelta
        ⟨some (GoErr.base "connection refused"), none, none⟩
        (some sampleAuthConfig) none).1
      ≠ some (GoErr.base "connection refused") := by
  constructor
  · rfl
  · decide

/-- C3 amended: every failing store mutation during apply is propagated
with no local retry (the trace holds exactly the one failed call).  The
metrics dashboard reconciler returns the client error unmodified; the
authconfig reconciler returns the store error wrapped once by errors.Wrapf
with a context message, keeping the original error as the cause. -/
theorem storeError_propagation (err : GoErr)
    (dA eA : Option AuthConfig) (dC eC : Option ConfigMap)
    (hA : (ComputeDelta GetAuthConfigComparator dA eA).HasChanges = true)
    (hC : (ComputeDelta GetConfigMapComparator dC eC).HasChanges = true) :
    ((KserveMetricsDashboardReconciler.processDelta ⟨some err, some err, some err⟩ dC eC).1 = some err
     ∧ (KserveMetricsDashboardReconciler.processDelta ⟨some err, some err, some err⟩ dC eC).2.length = 1)
    ∧ ((∃ msg, (KserveAuthConfigReconciler.processDelta ⟨some err, some err, some err⟩ dA eA).1
          = some (GoErr.wrapped msg err))
       ∧ (KserveAuthConfigReconciler.processDelta ⟨some err, some err, some err⟩ dA eA).2.length = 1) := by
  constructor
  · cases dC with
    | none =>
        cases eC with
        | none => simp [ComputeDelta, ResourceDelta.HasChanges] at hC
        | some e => rw [cmPD_remove]; exact ⟨rfl, rfl⟩
    | some d =>
        cases eC with
        | none => rw [cmPD_add]; simp
        | some e =>
            cases hc : GetConfigMapComparator d e with
            | true =>
                rw [ComputeDelta, hc] at hC
                simp [ResourceDelta.HasChanges] at hC
            | false => rw [cmPD_update _ _ _ hc]; exact ⟨rfl, rfl⟩
  · cases dA with
    | none =>
        cases eA with
        | none => simp [ComputeDelta, ResourceDelta.HasChanges] at hA
        | some e => rw [authPD_remove]; exact ⟨⟨_, rfl⟩, rfl⟩
    | some d =>
        cases eA with
        | none => rw [authPD_add]; exact ⟨⟨_, rfl⟩, rfl⟩
        | some e =>
            cases hc : GetAuthConfigComparator d e with
            | true =>
                rw [ComputeDelta, hc] at hA
                simp [ResourceDelta.HasChanges] at hA
            | false => rw [authPD_update _ _ _ hc]; exact ⟨⟨_, rfl⟩, rfl⟩

/-- Witness for the amended C3 at a concrete add Delta and failing store. -/
theorem storeError_propagation_witness :
    (ComputeDelta GetAuthConfigComparator (some sampleAuthConfig) none).HasChanges = true
    ∧ (ComputeDelta GetConfigMapComparator (some sampleConfigMap) none).HasChanges = true
    ∧ (KserveMetricsDashboardReconciler.processDelta
        ⟨some (GoErr.base "boom"), some (GoErr.base "boom"), some (GoErr.base "boom")⟩
        (some sampleConfigMap) none).1 = some (GoErr.base "boom") := by
  refine ⟨by decide, by decide, ?_⟩
  exact (storeError_propagation (GoErr.base "boom")
    (some sampleAuthConfig) none (some sampleConfigMap) none
    (by decide) (by decide)).1.1

/-! ## Monitoring controller comparators (kserve_monitoring_controller.go)

`arePeerAuthsEqual` and `areNetworkPoliciesEqual` call reflect.DeepEqual on
an ObjectMeta struct and a Labels map.  reflect.DeepEqual on interface
values whose dynamic types differ returns false, so the embedding compares
within an explicit universe of the Go values these functions pass. -/

structure ObjectMeta where
  name : String
  ns : String
  labels : List (String × String)
  resourceVersion : String
  deriving DecidableEq, Repr

structure WorkloadSelector where
  matchLabels : List (String × String)
  deriving DecidableEq, Repr

/-- istio PeerAuthentication spec: selector, mTLS mode (numeric enum; 3 =
STRICT, 2 = PERMISSIVE), and the per-port mTLS map (port to mode). -/
structure PeerAuthSpec where
  selector : Option WorkloadSelector
  mtlsMode : Nat
  portLevelMtls : List (Nat × Nat)
  deriving DecidableEq, Repr

structure PeerAuthentication where
  objectMeta : ObjectMeta
  spec : PeerAuthSpec
  deriving DecidableEq, Repr

structure NetworkPolicyPeer where
  namespaceSelectorMatchLabels : List (String × String)
  deriving DecidableEq, Repr

structure NetworkPolicyIngressRule where
  fromPeers : List NetworkPolicyPeer
  deriving DecidableEq, Repr

structure NetworkPolicy where
  objectMeta : ObjectMeta
  ingress : List NetworkPolicyIngressRule
  deriving DecidableEq, Repr

/-- The dynamic-typed (interface) values handed to reflect.DeepEqual by the
monitoring controller. -/
inductive GoAny where
  | objMeta (m : ObjectMeta)
  | strMap (l : List (String × String))
  | portMap (l : List (Nat × Nat))
  | ingressRules (l : List NetworkPolicyIngressRule)
  deriving DecidableEq, Repr

/-- Model of reflect.DeepEqual on interface values: false when the dynamic
types differ, structural equality otherwise. -/
def reflectDeepEqual (a b : GoAny) : Bool := a == b

/-- Embedding of buildDesiredPeerAuth (lines 82-108). -/
def buildDesiredPeerAuth (supportedFormat ns isvcName : String) : PeerAuthentication :=
  let base : PeerAuthentication :=
    { objectMeta :=
        { name := supportedFormat ++ "-metrics", ns := ns,
          labels := [("opendatahub.io/managed", "true")], resourceVersion := "" },
      spec :=
        { selector := some { matchLabels :=
            [("serving.knative.dev/service", isvcName ++ "predictor-default")] },
          mtlsMode := 3, portLevelMtls := [] } }
  if supportedFormat == "caikit" then
    { base with spec := { base.spec with portLevelMtls := [(8086, 2)] } }
  else base

/-- Embedding of arePeerAuthsEqual (lines 110-115): DeepEqual of the
desired ObjectMeta against the desired Labels map, conjoined with DeepEqual
of the two PortLevelMtls maps. -/
def arePeerAuthsEqual (desiredPeerAuth foundPeerAuth : PeerAuthentication) : Bool :=
  reflectDeepEqual (GoAny.objMeta desiredPeerAuth.objectMeta)
      (GoAny.strMap desiredPeerAuth.objectMeta.labels)
    && reflectDeepEqual (GoAny.portMap desiredPeerAuth.spec.portLevelMtls)
      (GoAny.portMap foundPeerAuth.spec.portLevelMtls)

/-- Embedding of areNetworkPoliciesEqual (lines 117-122). -/
def areNetworkPoliciesEqual (networkPolicy desiredNetWorkPolicy : NetworkPolicy) : Bool :=
  reflectDeepEqual (GoAny.objMeta networkPolicy.objectMeta)
      (GoAny.strMap desiredNetWorkPolicy.objectMeta.labels)
    && reflectDeepEqual (GoAny.ingressRules networkPolicy.ingress)
      (GoAny.ingressRules desiredNetWorkPolicy.ingress)

/-- The desired NetworkPolicy built inline by reconcileNetWorkPolicy
(lines 181-201). -/
def desiredNetWorkPolicy (ns : String) : NetworkPolicy :=
  { objectMeta :=
      { name := "allow-from-openshift-monitoring-ns", ns := ns,
        labels := [], resourceVersion := "" },
    ingress := [ { fromPeers :=
      [ { namespaceSelectorMatchLabels := [("name", "openshift-user-workload-monitoring")] } ] } ] }

/-- C4 evaluated at the failing inputs: both in-src comparators report a
value and an identical copy of itself unequal, because they DeepEqual the
ObjectMeta struct against the Labels map (interface values of different
dynamic types, hence always false). -/
theorem comparators_not_reflexive :
    arePeerAuthsEqual (buildDesiredPeerAuth "caikit" "test-ns" "mnist")
        (buildDesiredPeerAuth "caikit" "test-ns" "mnist") = false
    ∧ areNetworkPoliciesEqual (desiredNetWorkPolicy "test-ns")
        (desiredNetWorkPolicy "test-ns") = false := by decide

/-! ## KserveAuthConfigReconciler.Reconcile (lines 57-83)

The detector, template loader, host extractor and AuthConfig store are
interfaces from the resources package, which is not under src/; their
per-pass outcomes are supplied as an explicit environment oracle. -/

structure InferenceService where
  name : String
  ns : String
  statusURL : Option String
  annots : List (String × String)
  deriving DecidableEq, Repr

/-- Per-pass outcomes of the external collaborators of the authconfig
reconciler.  `getOutcome` models store.Get as the spec describes the store
interface (section 6): it reports not-found distinguishably
(GoErr.notFound), and yields no resource when it errs. -/
structure AuthReconcilerEnv where
  detectResult : Except GoErr String
  loadResult : Except GoErr AuthConfig
  getOutcome : Except GoErr AuthConfig

/-- Go map assignment m[key] = value on a string map modelled as an
association list (insert or overwrite). -/
def setLabel (labels : List (String × String)) (key value : String) :
    List (String × String) :=
  if labels.any (fun p => p.1 == key) then
    labels.map (fun p => if p.1 == key then (key, value) else p)
  else labels ++ [(key, value)]

/-- Embedding of createDesiredResource (lines 85-111): detect the auth
type, load the template, then stamp name, namespace, extracted hosts, the
authorization-group label and the controller owner reference.  Failures of
the two auxiliary lookups are wrapped and terminal.  The trace records the
auxiliary lookups performed. -/
def KserveAuthConfigReconciler.createDesiredResource (env : AuthReconcilerEnv)
    (hostExtract : InferenceService → List String) (isvc : InferenceService) :
    Except GoErr AuthConfig × List AuthStoreOp :=
  match env.detectResult with
  | Except.error e =>
      (Except.error (GoErr.wrapped
          ("could not detect AuthType for InferenceService " ++ isvc.ns ++ "/" ++ isvc.name) e),
       [AuthStoreOp.detect isvc.name isvc.ns])
  | Except.ok authType =>
    match env.loadResult with
    | Except.error e =>
        (Except.error (GoErr.wrapped
            ("could not load template for AuthType " ++ authType
              ++ " for InferenceService " ++ isvc.ns ++ "/" ++ isvc.name) e),
         [AuthStoreOp.detect isvc.name isvc.ns, AuthStoreOp.loadTemplate isvc.name isvc.ns])
    | Except.ok template =>
        let t : AuthConfig :=
          { template with
              name := isvc.name,
              ns := isvc.ns,
              spec := { template.spec with hosts := hostExtract isvc },
              labels := setLabel template.labels
                "security.opendatahub.io/authorization-group" "default",
              ownerRefs := [isvc.name] }
        (Except.ok t,
         [AuthStoreOp.detect isvc.name isvc.ns, AuthStoreOp.loadTemplate isvc.name isvc.ns])

/-- Embedding of getExistingResource (lines 113-119) over the store oracle:
on success the resource, on failure (not-found included) a nil resource
plus the error. -/
def KserveAuthConfigReconciler.getExistingResource (env : AuthReconcilerEnv) :
    Option AuthConfig × Option GoErr :=
  match env.getOutcome with
  | Except.error e => (none, some e)
  | Except.ok v => (some v, none)

/-- Embedding of KserveAuthConfigReconciler.Reconcile (lines 57-83): return
nil at once when the InferenceService has no status URL; build the desired
state (terminal on error); fetch the existing state, aborting with the raw
error unless it is not-found; then process the delta.  The trace records
every collaborator interaction of the pass. -/
def KserveAuthConfigReconciler.Reconcile (env : AuthReconcilerEnv)
    (store : AuthStoreBehavior) (hostExtract : InferenceService → List String)
    (isvc : InferenceService) : Option GoErr × List AuthStoreOp :=
  match isvc.statusURL with
  | none => (none, [])
  | some _ =>
    match KserveAuthConfigReconciler.createDesiredResource env hostExtract isvc with
    | (Except.error e, ops) => (some e, ops)
    | (Except.ok desiredState, buildOps) =>
      let fetched := KserveAuthConfigReconciler.getExistingResource env
      let opsSoFar := buildOps ++ [AuthStoreOp.get isvc.name isvc.ns]
      match fetched.2 with
      | some e =>
          if !IsNotFound e then (some e, opsSoFar)
          else
            let pd := KserveAuthConfigReconciler.processDelta store (some desiredState) fetched.1
            (pd.1, opsSoFar ++ pd.2)
      | none =>
          let pd := KserveAuthConfigReconciler.processDelta store (some desiredState) fetched.1
          (pd.1, opsSoFar ++ pd.2)

/-- The build step performs no store mutation. -/
theorem createDesiredResource_noMutation (env : AuthReconcilerEnv)
    (hostExtract : InferenceService → List String) (isvc : InferenceService) :
    (KserveAuthConfigReconciler.createDesiredResource env hostExtract isvc).2.all
      (fun o => !o.isMutation) = true := by
  rcases env with ⟨dr, lr, go⟩
  cases dr with
  | error e =>
      simp [KserveAuthConfigReconciler.createDesiredResource, AuthStoreOp.isMutation]
  | ok at0 =>
      cases lr with
      | error e =>
          simp [KserveAuthConfigReconciler.createDesiredResource, AuthStoreOp.isMutation]
      | ok t =>
          simp [KserveAuthConfigReconciler.createDesiredResource, AuthStoreOp.isMutation]

/-- C7: when the fetch of the existing resource reports not-found,
Reconcile treats the existing resource as absent and continues the pass
into processDelta; when the fetch fails for any other reason, Reconcile
aborts, propagates that error unmodified, and issues no store mutation. -/
theorem reconcile_fetch_error_policy (env : AuthReconcilerEnv)
    (store : AuthStoreBehavior) (hostExtract : InferenceService → List String)
    (isvc : InferenceService) (u : String) (d : AuthConfig)
    (bops : List AuthStoreOp) (e : GoErr)
    (hurl : isvc.statusURL = some u)
    (hbuild : KserveAuthConfigReconciler.createDesiredResource env hostExtract isvc
      = (Except.ok d, bops))
    (hget : env.getOutcome = Except.error e) :
    (IsNotFound e = true →
      KserveAuthConfigReconciler.Reconcile env store hostExtract isvc
        = ((KserveAuthConfigReconciler.processDelta store (some d) none).1,
           bops ++ [AuthStoreOp.get isvc.name isvc.ns]
             ++ (KserveAuthConfigReconciler.processDelta store (some d) none).2))
    ∧ (IsNotFound e = false →
      KserveAuthConfigReconciler.Reconcile env store hostExtract isvc
        = (some e, bops ++ [AuthStoreOp.get isvc.name isvc.ns])
      ∧ (bops ++ [AuthStoreOp.get isvc.name isvc.ns]).all (fun o => !o.isMutation) = true) := by
  constructor
  · intro hnf
    simp [KserveAuthConfigReconciler.Reconcile, hurl, hbuild,
      KserveAuthConfigReconciler.getExistingResource, hget, hnf]
  · intro hnf
    constructor
    · simp [KserveAuthConfigReconciler.Reconcile, hurl, hbuild,
        KserveAuthConfigReconciler.getExistingResource, hget, hnf]
    · have h := createDesiredResource_noMutation env hostExtract isvc
      rw [hbuild] at h
      simp only [List.all_append, h, Bool.true_and, List.all_cons, List.all_nil]
      rfl

/-- A ready InferenceService used by the Reconcile witnesses. -/
def isvcReady : InferenceService :=
  ⟨"mnist", "test-ns", some "https://mnist.test-ns.svc", []⟩

/-- Host extractor oracle used by the Reconcile witnesses. -/
def hostExtractW : InferenceService → List String :=
  fun i => [i.name ++ "." ++ i.ns ++ ".svc"]

/-- Environment whose store.Get reports not-found. -/
def envNotFoundW : AuthReconcilerEnv :=
  ⟨Except.ok "userdefined", Except.ok sampleAuthConfig,
   Except.error (GoErr.notFound "authconfigs mnist not found")⟩

/-- The desired AuthConfig the build step produces in that environment. -/
def desiredW : AuthConfig :=
  { sampleAuthConfig with
      name := "mnist", ns := "test-ns",
      spec := { sampleAuthConfig.spec with hosts := ["mnist.test-ns.svc"] },
      labels := setLabel sampleAuthConfig.labels
        "security.opendatahub.io/authorization-group" "default",
      ownerRefs := ["mnist"] }

/-- Witness for C7: a pass whose fetch reports not-found continues with an
absent existing resource and, the store being empty, creates the desired
AuthConfig. -/
theorem reconcile_fetch_error_policy_witness :
    isvcReady.statusURL = some "https://mnist.test-ns.svc"
    ∧ envNotFoundW.getOutcome = Except.error (GoErr.notFound "authconfigs mnist not found")
    ∧ IsNotFound (GoErr.notFound "authconfigs mnist not found") = true
    ∧ KserveAuthConfigReconciler.Reconcile envNotFoundW ⟨none, none, none⟩ hostExtractW isvcReady
      = (none,
         [AuthStoreOp.detect "mnist" "test-ns", AuthStoreOp.loadTemplate "mnist" "test-ns",
          AuthStoreOp.get "mnist" "test-ns", AuthStoreOp.create desiredW]) := by
  refine ⟨rfl, rfl, by decide, ?_⟩
  have h := (reconcile_fetch_error_policy envNotFoundW ⟨none, none, none⟩ hostExtractW isvcReady
    "https://mnist.test-ns.svc" desiredW
    [AuthStoreOp.detect "mnist" "test-ns", AuthStoreOp.loadTemplate "mnist" "test-ns"]
    (GoErr.notFound "authconfigs mnist not found") rfl rfl rfl).1 (by decide)
  rw [h]
  rfl

/-- C9: for every InferenceService whose status URL is nil, Reconcile
returns nil with an empty trace: no auxiliary lookup, no store read, no
store mutation. -/
theorem reconcile_skips_until_url (env : AuthReconcilerEnv)
    (store : AuthStoreBehavior) (hostExtract : InferenceService → List String)
    (isvc : InferenceService) (hurl : isvc.statusURL = none) :
    KserveAuthConfigReconciler.Reconcile env store hostExtract isvc = (none, []) := by
  simp [KserveAuthConfigReconciler.Reconcile, hurl]

/-- Witness for C9 at a concrete not-yet-ready InferenceService. -/
theorem reconcile_skips_until_url_witness :
    (⟨"mnist", "test-ns", none, []⟩ : InferenceService).statusURL = none
    ∧ KserveAuthConfigReconciler.Reconcile
        ⟨Except.ok "userdefined", Except.ok sampleAuthConfig, Except.ok sampleAuthConfig⟩
        ⟨some (GoErr.base "boom"), some (GoErr.base "boom"), some (GoErr.base "boom")⟩
        (fun i => [i.name ++ "." ++ i.ns ++ ".svc"])
        ⟨"mnist", "test-ns", none, []⟩ = (none, []) := by
  refine ⟨rfl, ?_⟩
  exact reconcile_skips_until_url _ _ _ _ rfl

/-! ## Metrics createDesiredResource: the runtime-image access (lines 215-224)

createDesiredResource fetches the ServingRuntime referenced by the parent;
on a Get error it only logs and continues, leaving `runtime` the zero
ServingRuntime (empty container slice), and then evaluates
runtime.Spec.Containers[0].Image.  A Go slice index out of range is a
runtime panic; the access is modelled by List.get? so that none marks the
faulting access. -/

structure Container where
  image : String
  deriving DecidableEq, Repr

structure ServingRuntime where
  containers : List Container
  deriving DecidableEq, Repr

/-- The zero value produced by `&kservev1alpha1.ServingRuntime\x7b\x7d`. -/
def zeroServingRuntime : ServingRuntime := { containers := [] }

/-- The runtime object in scope after the Get call of createDesiredResource:
on any Get error the code only logs, so the zero object remains. -/
def runtimeAfterGet (getResult : Except GoErr ServingRuntime) : ServingRuntime :=
  match getResult with
  | Except.error _ => zeroServingRuntime
  | Except.ok rt => rt

/-- The access runtime.Spec.Containers[0].Image; none marks an index out of
range, which panics in Go. -/
def runtimeImageAccess (runtime : ServingRuntime) : Option String :=
  (runtime.containers.get? 0).map Container.image

/-- C8 evaluated at the failing input: when the ServingRuntime lookup fails
(for example not-found), the build step continues with the zero runtime and
the subsequent container-image access is out of bounds — the index 0 is not
below the length 0 of the container slice, so the Go code panics rather
than degrade gracefully or return an error. -/
theorem runtimeImage_out_of_bounds :
    runtimeAfterGet (Except.error (GoErr.notFound "servingruntimes kserve-ovms not found"))
      = zeroServingRuntime
    ∧ runtimeImageAccess zeroServingRuntime = none
    ∧ ¬ 0 < zeroServingRuntime.containers.length := by decide

/-! ## GetDeploymentModeForIsvc (utils/utils.go, lines 37-76)

The function compares `deployData["defaultDeploymentMode"]` — an
interface value produced by json.Unmarshal into map[string]interface — with
the typed constant `Serverless` of the named string type IsvcDeploymentMode.
Go equality of two interface values is false whenever the dynamic types
differ, and panics when they are equal but non-comparable; json.Unmarshal
never produces the dynamic type IsvcDeploymentMode, so the comparison can
never be true. -/

/-- A Go interface value as it flows through GetDeploymentModeForIsvc:
the json.Unmarshal results (string, float64, bool, nil, slice, map — the
payloads of slice and map are irrelevant to the one comparison performed)
and a value of the named type IsvcDeploymentMode. -/
inductive GoIfaceVal where
  | jsonStr (s : String)
  | jsonNum (n : Int)
  | jsonBool (b : Bool)
  | nilIface
  | jsonArr
  | jsonObj
  | deployMode (s : String)
  deriving DecidableEq, Repr

/-- True for the dynamic types json.Unmarshal can produce in a
map[string]interface value (also for the nil interface a missing map key
yields). -/
def GoIfaceVal.fromJSONUnmarshal : GoIfaceVal → Bool
  | GoIfaceVal.deployMode _ => false
  | _ => true

/-- Model of Go equality on two interface values: false when the dynamic
types differ; payload equality when they agree; none models the runtime
panic on equal non-comparable dynamic types (slice, map). -/
def goIfaceEq : GoIfaceVal → GoIfaceVal → Option Bool
  | GoIfaceVal.jsonStr a, GoIfaceVal.jsonStr b => some (a == b)
  | GoIfaceVal.jsonNum a, GoIfaceVal.jsonNum b => some (a == b)
  | GoIfaceVal.jsonBool a, GoIfaceVal.jsonBool b => some (a == b)
  | GoIfaceVal.nilIface, GoIfaceVal.nilIface => some true
  | GoIfaceVal.jsonArr, GoIfaceVal.jsonArr => none
  | GoIfaceVal.jsonObj, GoIfaceVal.jsonObj => none
  | GoIfaceVal.deployMode a, GoIfaceVal.deployMode b => some (a == b)
  | _, _ => some false

def Serverless : String := "Serverless"

def RawDeployment : String := "RawDeployment"

def ModelMesh : String := "ModelMesh"

/-- The deploymentMode annotation key serving.kserve.io/deploymentMode. -/
def deploymentModeKey : String := "serving.kserve.io/deploymentMode"

/-- Go map lookup on an association list (first binding wins). -/
def mapLookup {α : Type} (m : List (String × α)) (k : String) : Option α :=
  (m.find? (fun p => p.1 == k)).map Prod.snd

/-- Go map indexing on map[string]string: a missing key yields the zero
value, the empty string. -/
def mapLookupStr (m : List (String × String)) (k : String) : String :=
  (mapLookup m k).getD ""

/-- Go map indexing on map[string]interface: a missing key yields the nil
interface. -/
def mapLookupIface (m : List (String × GoIfaceVal)) (k : String) : GoIfaceVal :=
  (mapLookup m k).getD GoIfaceVal.nilIface

/-- Per-pass outcomes of the externals GetDeploymentModeForIsvc consults:
GetOperatorNamespace (a file read), the Get of the inferenceservice-config
ConfigMap (its Data map on success), and json.Unmarshal of the deploy key
into map[string]interface. -/
structure UtilsEnv where
  operatorNs : Except GoErr String
  configMapData : Except GoErr (List (String × String))
  deployParse : String → Except GoErr (List (String × GoIfaceVal))

/-- Embedding of GetDeploymentModeForIsvc (lines 37-76): honour an explicit
deploymentMode annotation; otherwise read the inferenceservice-config
ConfigMap, parse its deploy key, and compare its defaultDeploymentMode
field with the typed constant Serverless.  The first component is the
returned IsvcDeploymentMode (empty string for the zero value), the second
the returned error. -/
def GetDeploymentModeForIsvc (env : UtilsEnv) (isvc : InferenceService) :
    String × Option GoErr :=
  match mapLookup isvc.annots deploymentModeKey with
  | some value =>
      if value == ModelMesh then (ModelMesh, none)
      else if value == Serverless then (Serverless, none)
      else if value == RawDeployment then (RawDeployment, none)
      else ("", none)
  | none =>
      match env.operatorNs with
      | Except.error e =>
          ("", some (GoErr.wrapped
            "cannot determine controller namespace to retrive inferenceservice-config." e))
      | Except.ok _ =>
        match env.configMapData with
        | Except.error e =>
            ("", some (GoErr.wrapped "error getting configmap inferenceservice-config." e))
        | Except.ok data =>
          match env.deployParse (mapLookupStr data "deploy") with
          | Except.error e =>
              ("", some (GoErr.wrapped
                "error retrieving value for key deploy from configmap inferenceservice-config." e))
          | Except.ok deployData =>
            let defaultDeploymentMode := mapLookupIface deployData "defaultDeploymentMode"
            match goIfaceEq defaultDeploymentMode (GoIfaceVal.deployMode Serverless) with
            | none => ("", some (GoErr.base "comparing uncomparable type"))
            | some b => if b then (Serverless, none) else (RawDeployment, none)

/-- An interface value produced by json.Unmarshal never equals the typed
Serverless constant: the dynamic types differ. -/
theorem goIfaceEq_json_deployMode (v : GoIfaceVal) (s : String)
    (hv : v.fromJSONUnmarshal = true) :
    goIfaceEq v (GoIfaceVal.deployMode s) = some false := by
  cases v with
  | jsonStr a => rfl
  | jsonNum a => rfl
  | jsonBool a => rfl
  | nilIface => rfl
  | jsonArr => rfl
  | jsonObj => rfl
  | deployMode a => simp [GoIfaceVal.fromJSONUnmarshal] at hv

/-- C10: for every InferenceService without a deploymentMode annotation,
when the inferenceservice-config ConfigMap is fetched and its deploy key
parses, GetDeploymentModeForIsvc returns RawDeployment with nil error —
for every value of defaultDeploymentMode the parse can produce, including
the JSON string Serverless — because the comparison against the typed
Serverless constant compares interface values of different dynamic types. -/
theorem getDeploymentMode_always_raw (env : UtilsEnv) (isvc : InferenceService)
    (ns : String) (data : List (String × String))
    (deployData : List (String × GoIfaceVal))
    (hann : mapLookup isvc.annots deploymentModeKey = none)
    (hns : env.operatorNs = Except.ok ns)
    (hcm : env.configMapData = Except.ok data)
    (hparse : env.deployParse (mapLookupStr data "deploy") = Except.ok deployData)
    (hjson : deployData.all (fun kv => kv.2.fromJSONUnmarshal) = true) :
    GetDeploymentModeForIsvc env isvc = (RawDeployment, none) := by
  have hdv : (mapLookupIface deployData "defaultDeploymentMode").fromJSONUnmarshal = true := by
    rw [mapLookupIface, mapLookup]
    cases hf : deployData.find? (fun p => p.1 == "defaultDeploymentMode") with
    | none => rfl
    | some kv =>
        have hmem := List.mem_of_find?_eq_some hf
        have := List.all_eq_true.mp hjson kv hmem
        simpa using this
  have hcmp := goIfaceEq_json_deployMode (mapLookupIface deployData "defaultDeploymentMode")
    Serverless hdv
  simp [GetDeploymentModeForIsvc, hann, hns, hcm, hparse, hcmp]

/-- Witness for C10: the ConfigMap default is the JSON string Serverless,
yet RawDeployment is returned. -/
theorem getDeploymentMode_always_raw_witness :
    mapLookup ([] : List (String × String)) deploymentModeKey = none
    ∧ ([("defaultDeploymentMode", GoIfaceVal.jsonStr "Serverless")].all
        (fun kv => kv.2.fromJSONUnmarshal)) = true
    ∧ GetDeploymentModeForIsvc
        ⟨Except.ok "opendatahub",
         Except.ok [("deploy", "deploy-json")],
         fun _ => Except.ok [("defaultDeploymentMode", GoIfaceVal.jsonStr "Serverless")]⟩
        ⟨"mnist", "test-ns", none, []⟩
      = (RawDeployment, none) := by
  refine ⟨rfl, by decide, ?_⟩
  exact getDeploymentMode_always_raw
    ⟨Except.ok "opendatahub",
     Except.ok [("deploy", "deploy-json")],
     fun _ => Except.ok [("defaultDeploymentMode", GoIfaceVal.jsonStr "Serverless")]⟩
    ⟨"mnist", "test-ns", none, []⟩
    "opendatahub" [("deploy", "deploy-json")]
    [("defaultDeploymentMode", GoIfaceVal.jsonStr "Serverless")]
    rfl rfl rfl rfl (by decide)

end OdhModelController
